import Mathlib

/-!
Verification development for the stocks-automation trading system.

The Python modules under src/trading are shallowly embedded here:
dictionaries become association lists or Option-valued query functions,
floats become exact rationals (ℚ), integer quantities become ℤ, and
file persistence is tracked by an explicit Boolean "persisted" flag in
the result of each state-mutating operation.
-/

namespace Trading

/-! ## Configuration constants (src/trading/config.py)

Python float literals are embedded as exact rationals. -/

/-- config.py: SCORE_WEIGHT_PE = 0.25 -/
def SCORE_WEIGHT_PE : ℚ := 25/100

/-- config.py: SCORE_WEIGHT_EPS_GROWTH = 0.25 -/
def SCORE_WEIGHT_EPS_GROWTH : ℚ := 25/100

/-- config.py: SCORE_WEIGHT_REVENUE_GROWTH = 0.15 -/
def SCORE_WEIGHT_REVENUE_GROWTH : ℚ := 15/100

/-- config.py: SCORE_WEIGHT_PROFIT_MARGIN = 0.10 -/
def SCORE_WEIGHT_PROFIT_MARGIN : ℚ := 10/100

/-- config.py: SCORE_WEIGHT_DEBT_EQUITY = 0.10 -/
def SCORE_WEIGHT_DEBT_EQUITY : ℚ := 10/100

/-- config.py: SCORE_WEIGHT_FAIR_VALUE_GAP = 0.15 -/
def SCORE_WEIGHT_FAIR_VALUE_GAP : ℚ := 15/100

/-- config.py: FUNDAMENTAL_GATE_THRESHOLD = 40 -/
def FUNDAMENTAL_GATE_THRESHOLD : ℚ := 40

/-- config.py: SECTOR_MIN_ALLOCATION = 0.15 -/
def SECTOR_MIN_ALLOCATION : ℚ := 15/100

/-- config.py: SECTOR_MAX_ALLOCATION = 0.55 -/
def SECTOR_MAX_ALLOCATION : ℚ := 55/100

/-- config.py: MAX_POSITIONS = 20 -/
def MAX_POSITIONS : ℕ := 20

/-- config.py: MAX_POSITION_PCT = 0.05 -/
def MAX_POSITION_PCT : ℚ := 5/100

/-- config.py: WASH_SALE_LOSS_THRESHOLD = 100.0 -/
def WASH_SALE_LOSS_THRESHOLD : ℚ := 100

/-- config.py: BUY_SCORE_THRESHOLD = 60 -/
def BUY_SCORE_THRESHOLD : ℚ := 60

/-- config.py: STRONG_BUY_SCORE_THRESHOLD = 70 -/
def STRONG_BUY_SCORE_THRESHOLD : ℚ := 70

/-- config.py: SELL_SCORE_THRESHOLD = 50 -/
def SELL_SCORE_THRESHOLD : ℚ := 50

/-- config.py: COLLAPSE_SCORE_THRESHOLD = 30 -/
def COLLAPSE_SCORE_THRESHOLD : ℚ := 30

/-- config.py: STRONG_BUY_THRESHOLD = 0.20 (window position) -/
def STRONG_BUY_THRESHOLD : ℚ := 20/100

/-- config.py: BUY_THRESHOLD = 0.35 (window position) -/
def BUY_THRESHOLD : ℚ := 35/100

/-- config.py: SELL_THRESHOLD = 0.65 (window position) -/
def SELL_THRESHOLD : ℚ := 65/100

/-- config.py: STRONG_SELL_THRESHOLD = 0.80 (window position) -/
def STRONG_SELL_THRESHOLD : ℚ := 80/100

/-! ## Rounding

Python's built-in round uses round-half-to-even.  All inputs we
evaluate it on are exactly representable, so the exact-rational version
below matches the source behaviour on the values that occur here. -/

/-- Round a rational to the nearest integer, halves to the even integer
(Python built-in round). -/
def round_half_even (q : ℚ) : ℤ :=
  let f := ⌊q⌋
  let frac := q - f
  if frac < 1/2 then f
  else if 1/2 < frac then f + 1
  else if f % 2 = 0 then f else f + 1

/-- Python round(q, 2): two-decimal rounding. -/
def round2 (q : ℚ) : ℚ := (round_half_even (q * 100) : ℚ) / 100

/-! ## Value scorer (src/trading/value_scorer.py)

A missing value in the fundamentals dict (dict.get returning None) is
an Option that is none. -/

/-- value_scorer.py: NEUTRAL = 50.0, default when data is missing. -/
def NEUTRAL : ℚ := 50

/-- FundamentalsRecord: the keys read by compute_value_score, each
optional (absent key = none). -/
structure Fundamentals where
  pe : Option ℚ
  eps_growth : Option ℚ
  revenue_growth : Option ℚ
  profit_margin : Option ℚ
  debt_equity : Option ℚ
  analyst_target : Option ℚ
  current_price : Option ℚ
deriving DecidableEq, Repr

/-- value_scorer.py _score_pe: lower PE is better, bracket scoring. -/
def score_pe : Option ℚ → ℚ
  | none => NEUTRAL
  | some pe =>
    if pe ≤ 0 then NEUTRAL
    else if pe < 10 then 100
    else if pe < 15 then 85
    else if pe < 20 then 70
    else if pe < 25 then 55
    else if pe < 30 then 40
    else if pe < 40 then 25
    else 10

/-- value_scorer.py _score_eps_growth: higher EPS growth is better,
decimal input converted to a percentage. -/
def score_eps_growth : Option ℚ → ℚ
  | none => NEUTRAL
  | some growth =>
    let pct := growth * 100
    if pct > 30 then 100
    else if pct > 20 then 85
    else if pct > 10 then 70
    else if pct > 5 then 60
    else if pct > 0 then 45
    else if pct > -10 then 30
    else 10

/-- value_scorer.py _score_revenue_growth. -/
def score_revenue_growth : Option ℚ → ℚ
  | none => NEUTRAL
  | some growth =>
    let pct := growth * 100
    if pct > 25 then 100
    else if pct > 15 then 85
    else if pct > 10 then 70
    else if pct > 5 then 55
    else if pct > 0 then 40
    else if pct > -5 then 25
    else 10

/-- value_scorer.py _score_profit_margin. -/
def score_profit_margin : Option ℚ → ℚ
  | none => NEUTRAL
  | some margin =>
    let pct := margin * 100
    if pct > 30 then 100
    else if pct > 20 then 85
    else if pct > 15 then 70
    else if pct > 10 then 55
    else if pct > 5 then 40
    else if pct > 0 then 25
    else 10

/-- value_scorer.py _score_debt_equity: lower debt/equity is better. -/
def score_debt_equity : Option ℚ → ℚ
  | none => NEUTRAL
  | some de =>
    if de < 20 then 100
    else if de < 50 then 85
    else if de < 80 then 70
    else if de < 120 then 55
    else if de < 180 then 40
    else if de < 250 then 25
    else 10

/-- value_scorer.py _score_fair_value_gap: distance below the analyst
target; missing value or non-positive target yields NEUTRAL. -/
def score_fair_value_gap (current_price analyst_target : Option ℚ) : ℚ :=
  match current_price, analyst_target with
  | some cp, some tgt =>
    if tgt ≤ 0 then NEUTRAL
    else
      let gap_pct := (tgt - cp) / tgt * 100
      if gap_pct > 30 then 100
      else if gap_pct > 20 then 85
      else if gap_pct > 10 then 70
      else if gap_pct > 5 then 55
      else if gap_pct > 0 then 40
      else if gap_pct > -10 then 25
      else 10
  | _, _ => NEUTRAL

/-- value_scorer.py compute_value_score: fixed weighted sum of the six
sub-scores, clamped to [0, 100] and rounded to two decimals. -/
def compute_value_score (f : Fundamentals) : ℚ :=
  let weighted :=
    SCORE_WEIGHT_PE * score_pe f.pe
    + SCORE_WEIGHT_EPS_GROWTH * score_eps_growth f.eps_growth
    + SCORE_WEIGHT_REVENUE_GROWTH * score_revenue_growth f.revenue_growth
    + SCORE_WEIGHT_PROFIT_MARGIN * score_profit_margin f.profit_margin
    + SCORE_WEIGHT_DEBT_EQUITY * score_debt_equity f.debt_equity
    + SCORE_WEIGHT_FAIR_VALUE_GAP *
        score_fair_value_gap f.current_price f.analyst_target
  round2 (min (100 : ℚ) (max (0 : ℚ) weighted))

/-- value_scorer.py passes_fundamental_gate. -/
def passes_fundamental_gate (score : ℚ) : Bool :=
  FUNDAMENTAL_GATE_THRESHOLD ≤ score

/-- The fundamentals record from the spec's worked example (claim C4). -/
def c4_record : Fundamentals :=
  { pe := some 12
    eps_growth := some (25/100)
    revenue_growth := some (20/100)
    profit_margin := some (22/100)
    debt_equity := some 15
    analyst_target := some 140
    current_price := some 100 }

/-- C4 counterexample: on the spec's example record the composite value
score is strictly below 90, and the P/E sub-score is 85, not the top
bracket 100 — the claim "every sub-score is in the top bracket and the
composite is ≥ 90" is false on the code. -/
theorem c4_example_counterexample :
    compute_value_score c4_record < 90 ∧ score_pe (some 12) ≠ 100 := by
  constructor
  · norm_num [compute_value_score, c4_record, score_pe, score_eps_growth,
      score_revenue_growth, score_profit_margin, score_debt_equity,
      score_fair_value_gap, SCORE_WEIGHT_PE, SCORE_WEIGHT_EPS_GROWTH,
      SCORE_WEIGHT_REVENUE_GROWTH, SCORE_WEIGHT_PROFIT_MARGIN,
      SCORE_WEIGHT_DEBT_EQUITY, SCORE_WEIGHT_FAIR_VALUE_GAP,
      round2, round_half_even]
  · norm_num [score_pe]

/-- C4 (amended): on the record {pe 12, epsGrowth 0.25, revenueGrowth
0.20, profitMargin 0.22, debtEquity 15, price 100, target 140} every
sub-score lands in one of the top two brackets (85 for five metrics,
100 for debt/equity) and compute_value_score returns exactly 86.5
(= 173/2), which is ≥ 85 but below 90. -/
theorem c4_example_scores :
    score_pe (some 12) = 85 ∧
    score_eps_growth (some (25/100)) = 85 ∧
    score_revenue_growth (some (20/100)) = 85 ∧
    score_profit_margin (some (22/100)) = 85 ∧
    score_debt_equity (some 15) = 100 ∧
    score_fair_value_gap (some 100) (some 140) = 85 ∧
    compute_value_score c4_record = 173/2 := by
  refine ⟨?_, ?_, ?_, ?_, ?_, ?_, ?_⟩
  · norm_num [score_pe]
  · norm_num [score_eps_growth]
  · norm_num [score_revenue_growth]
  · norm_num [score_profit_margin]
  · norm_num [score_debt_equity]
  · norm_num [score_fair_value_gap, NEUTRAL]
  · norm_num [compute_value_score, c4_record, score_pe, score_eps_growth,
      score_revenue_growth, score_profit_margin, score_debt_equity,
      score_fair_value_gap, SCORE_WEIGHT_PE, SCORE_WEIGHT_EPS_GROWTH,
      SCORE_WEIGHT_REVENUE_GROWTH, SCORE_WEIGHT_PROFIT_MARGIN,
      SCORE_WEIGHT_DEBT_EQUITY, SCORE_WEIGHT_FAIR_VALUE_GAP,
      round2, round_half_even]

/-- C5 counterexample: the EPS-growth sub-scorer returns 60 on input
0.07 (7% growth), and 60 is neither the neutral 50 nor a member of the
claimed band set {10, 25, 40, 55, 70, 85, 100}. -/
theorem c5_eps_band_counterexample :
    score_eps_growth (some (7/100)) = 60 ∧
    (60 : ℚ) ∉ ([10, 25, 40, 55, 70, 85, 100] : List ℚ) ∧ (60 : ℚ) ≠ 50 := by
  refine ⟨by norm_num [score_eps_growth], by norm_num, by norm_num⟩

/-- C5 (amended): for every input, the P/E, revenue-growth,
profit-margin, debt/equity and fair-value-gap scorers return the
neutral 50 or a value in {10, 25, 40, 55, 70, 85, 100}; the EPS-growth
scorer instead returns 50 or a value in its own band set
{10, 30, 45, 60, 70, 85, 100}. -/
theorem sub_scorers_banded (x cp tgt : Option ℚ) :
    score_pe x ∈ ([50, 10, 25, 40, 55, 70, 85, 100] : List ℚ) ∧
    score_revenue_growth x ∈ ([50, 10, 25, 40, 55, 70, 85, 100] : List ℚ) ∧
    score_profit_margin x ∈ ([50, 10, 25, 40, 55, 70, 85, 100] : List ℚ) ∧
    score_debt_equity x ∈ ([50, 10, 25, 40, 55, 70, 85, 100] : List ℚ) ∧
    score_fair_value_gap cp tgt ∈ ([50, 10, 25, 40, 55, 70, 85, 100] : List ℚ) ∧
    score_eps_growth x ∈ ([50, 10, 30, 45, 60, 70, 85, 100] : List ℚ) := by
  refine ⟨?_, ?_, ?_, ?_, ?_, ?_⟩
  · rcases x with _ | v
    · norm_num [score_pe, NEUTRAL]
    · simp only [score_pe]
      split_ifs <;> norm_num [NEUTRAL]
  · rcases x with _ | v
    · norm_num [score_revenue_growth, NEUTRAL]
    · simp only [score_revenue_growth]
      split_ifs <;> norm_num [NEUTRAL]
  · rcases x with _ | v
    · norm_num [score_profit_margin, NEUTRAL]
    · simp only [score_profit_margin]
      split_ifs <;> norm_num [NEUTRAL]
  · rcases x with _ | v
    · norm_num [score_debt_equity, NEUTRAL]
    · simp only [score_debt_equity]
      split_ifs <;> norm_num [NEUTRAL]
  · rcases cp with _ | c <;> rcases tgt with _ | t
    · norm_num [score_fair_value_gap, NEUTRAL]
    · norm_num [score_fair_value_gap, NEUTRAL]
    · norm_num [score_fair_value_gap, NEUTRAL]
    · simp only [score_fair_value_gap]
      split_ifs <;> norm_num [NEUTRAL]
  · rcases x with _ | v
    · norm_num [score_eps_growth, NEUTRAL]
    · simp only [score_eps_growth]
      split_ifs <;> norm_num [NEUTRAL]

/-! ## Sector rotation (src/trading/sector_rotation.py)

A Python dict {sector: value} is embedded as an insertion-ordered
association list; every step of compute_sector_allocations is a
pointwise comprehension over it. -/

/-- universe.py: SECTOR_NAMES, the three sector keys. -/
def SECTOR_NAMES : List String := ["Tech", "Energy", "Minerals"]

/-- Python min over a nonempty collection of rationals (qmin [] is a
junk value, never used: the caller guards on nonemptiness). -/
def qmin : List ℚ → ℚ
  | [] => 0
  | [x] => x
  | x :: y :: rest => min x (qmin (y :: rest))

/-- Steps 1-4 of sector_rotation.py compute_sector_allocations:
negate, shift by (min + 0.01), normalise, clamp into
[SECTOR_MIN_ALLOCATION, SECTOR_MAX_ALLOCATION]. -/
def clamped_allocations (performances : List (String × ℚ)) : List (String × ℚ) :=
  let inverted := performances.map (fun p => (p.1, -p.2))
  let min_val := qmin (inverted.map Prod.snd)
  let shifted := inverted.map (fun p => (p.1, p.2 - min_val + 1/100))
  let total := (shifted.map Prod.snd).sum
  let alloc := shifted.map (fun p => (p.1, p.2 / total))
  alloc.map (fun p =>
    (p.1, max SECTOR_MIN_ALLOCATION (min SECTOR_MAX_ALLOCATION p.2)))

/-- sector_rotation.py compute_sector_allocations: equal-weight
fallback on an empty map, otherwise steps 1-4 (clamped_allocations)
followed by step 5, the re-normalisation after clamping. -/
def compute_sector_allocations (performances : List (String × ℚ)) :
    List (String × ℚ) :=
  if performances.isEmpty then
    SECTOR_NAMES.map (fun s => (s, 1 / (SECTOR_NAMES.length : ℚ)))
  else
    let alloc := clamped_allocations performances
    let total := (alloc.map Prod.snd).sum
    alloc.map (fun p => (p.1, p.2 / total))

/-- Dividing every element of a list by t divides the sum by t. -/
lemma list_sum_map_div (l : List ℚ) (t : ℚ) :
    (l.map (fun q => q / t)).sum = l.sum / t := by
  induction l with
  | nil => simp
  | cons a rest ih => simp [ih, add_div]

/-- A nonempty list of rationals all at least 15/100 has positive sum. -/
lemma list_sum_pos_of_min_alloc (l : List ℚ) (h : l ≠ [])
    (hc : ∀ x ∈ l, (15/100 : ℚ) ≤ x) : 0 < l.sum := by
  cases l with
  | nil => exact absurd rfl h
  | cons a rest =>
    have ha : (0 : ℚ) < a := by
      have := hc a (by simp)
      linarith
    have hrest : (0 : ℚ) ≤ rest.sum := by
      apply List.sum_nonneg
      intro x hx
      have := hc x (by simp [hx])
      linarith
    simp only [List.sum_cons]
    linarith

/-- Every entry produced by the clamp step lies in the configured band. -/
lemma clamped_allocations_mem_band (performances : List (String × ℚ)) :
    ∀ p ∈ clamped_allocations performances,
      SECTOR_MIN_ALLOCATION ≤ p.2 ∧ p.2 ≤ SECTOR_MAX_ALLOCATION := by
  intro p hp
  simp only [clamped_allocations, List.mem_map] at hp
  obtain ⟨q, _, rfl⟩ := hp
  constructor
  · exact le_max_left _ _
  · apply max_le
    · norm_num [SECTOR_MIN_ALLOCATION, SECTOR_MAX_ALLOCATION]
    · exact min_le_left _ _

/-- C1 counterexample: for performances A ↦ −10, B ↦ +5 the final
re-normalisation pushes sector A's fraction to 11/14 ≈ 0.786, outside
the [0.15, 0.55] band, so "sum is 1 and every fraction is in band"
fails on the code. -/
theorem c1_band_counterexample :
    ¬ ((((compute_sector_allocations [("A", -10), ("B", 5)]).map Prod.snd).sum = 1) ∧
       ∀ p ∈ compute_sector_allocations [("A", -10), ("B", 5)],
         SECTOR_MIN_ALLOCATION ≤ p.2 ∧ p.2 ≤ SECTOR_MAX_ALLOCATION) := by
  intro h
  have hmem := h.2 ("A", 11/14) (by
    norm_num [compute_sector_allocations, clamped_allocations, qmin,
      SECTOR_MIN_ALLOCATION, SECTOR_MAX_ALLOCATION])
  norm_num [SECTOR_MAX_ALLOCATION] at hmem

/-- C1 (amended): for every non-empty performance map the returned
fractions sum to exactly 1, and every fraction is inside the
[SECTOR_MIN_ALLOCATION, SECTOR_MAX_ALLOCATION] band after the clamp
step (step 4); the final re-normalisation restores the unit sum but can
move fractions back outside the band. -/
theorem compute_sector_allocations_sum_one (performances : List (String × ℚ))
    (h : performances ≠ []) :
    ((compute_sector_allocations performances).map Prod.snd).sum = 1 ∧
    ∀ p ∈ clamped_allocations performances,
      SECTOR_MIN_ALLOCATION ≤ p.2 ∧ p.2 ≤ SECTOR_MAX_ALLOCATION := by
  refine ⟨?_, clamped_allocations_mem_band performances⟩
  have hne : clamped_allocations performances ≠ [] := by
    simp only [clamped_allocations, ne_eq, List.map_eq_nil_iff]
    exact h
  have hband := clamped_allocations_mem_band performances
  have hpos : 0 < ((clamped_allocations performances).map Prod.snd).sum := by
    apply list_sum_pos_of_min_alloc
    · simp [List.map_eq_nil_iff, hne]
    · intro x hx
      simp only [List.mem_map] at hx
      obtain ⟨q, hq, rfl⟩ := hx
      have := (hband q hq).1
      simpa [SECTOR_MIN_ALLOCATION] using this
  have hempty : performances.isEmpty = false := by
    cases performances with
    | nil => exact absurd rfl h
    | cons a rest => rfl
  simp only [compute_sector_allocations, hempty, Bool.false_eq_true, if_false]
  rw [List.map_map]
  have : (Prod.snd ∘ fun p : String × ℚ =>
      (p.1, p.2 / ((clamped_allocations performances).map Prod.snd).sum)) =
      (fun p : String × ℚ =>
        p.2 / ((clamped_allocations performances).map Prod.snd).sum) := rfl
  rw [this]
  have hrw : (clamped_allocations performances).map
      (fun p : String × ℚ =>
        p.2 / ((clamped_allocations performances).map Prod.snd).sum) =
      ((clamped_allocations performances).map Prod.snd).map
      (fun q => q / ((clamped_allocations performances).map Prod.snd).sum) := by
    rw [List.map_map]
    rfl
  rw [hrw, list_sum_map_div, div_self (ne_of_gt hpos)]

/-- Witness for the amended C1 at the concrete one-sector map
Tech ↦ 0.10. -/
theorem c1_sum_one_witness :
    ([(("Tech" : String), (1 : ℚ)/10)] ≠ [] ∧
     (((compute_sector_allocations [("Tech", 1/10)]).map Prod.snd).sum = 1 ∧
      ∀ p ∈ clamped_allocations [("Tech", 1/10)],
        SECTOR_MIN_ALLOCATION ≤ p.2 ∧ p.2 ≤ SECTOR_MAX_ALLOCATION)) :=
  ⟨by simp, compute_sector_allocations_sum_one _ (by simp)⟩

/-! ## Portfolio tracker (src/trading/portfolio_tracker.py)

The holdings dict is an insertion-ordered association list with the
Python dict operations: assignment to an existing key updates the value
in place, assignment to a fresh key appends, del removes.  Each
state-mutating method returns (new state, persisted?) where the Boolean
records whether self.save() ran before the method returned. -/

/-- A value of the holdings dict.  sync_from_sim writes qty and
avg_cost only; sync_from_api also writes market_value and total_gain.
update_market_values reads avg_cost with holding.get("avg_cost", 0);
every holding written by this code carries the key, so the field is
total here. -/
structure Holding where
  qty : ℤ
  avg_cost : ℚ
  market_value : Option ℚ := none
  total_gain : Option ℚ := none
deriving DecidableEq, Repr

/-- PortfolioState: the three persisted fields of PortfolioTracker. -/
structure PortfolioState where
  holdings : List (String × Holding)
  cash : ℚ
  total_value : ℚ
deriving DecidableEq, Repr

/-- A ledger entry as written by SimExecutor; sync_from_sim reads only
symbol, quantity, price and action. -/
structure TradeRecord where
  timestamp : String
  action : String
  symbol : String
  quantity : ℤ
  price : ℚ
  total : ℚ
  reason : String
  sector : String
deriving DecidableEq, Repr

/-- Python dict lookup on the holdings association list. -/
def lookupH : List (String × Holding) → String → Option Holding
  | [], _ => none
  | e :: rest, k => if e.1 = k then some e.2 else lookupH rest k

/-- Python dict assignment: update in place when the key exists,
append otherwise. -/
def setH : List (String × Holding) → String → Holding → List (String × Holding)
  | [], k, v => [(k, v)]
  | e :: rest, k, v => if e.1 = k then (k, v) :: rest else e :: setH rest k v

/-- Python del on the holdings dict. -/
def eraseH : List (String × Holding) → String → List (String × Holding)
  | [], _ => []
  | e :: rest, k => if e.1 = k then rest else e :: eraseH rest k

/-- One iteration of the sync_from_sim replay loop
(portfolio_tracker.py lines 101-127) over (holdings, cash). -/
def replay_trade (holdings : List (String × Holding)) (cash : ℚ)
    (trade : TradeRecord) : List (String × Holding) × ℚ :=
  if trade.action = "BUY" then
    let cost := (trade.quantity : ℚ) * trade.price
    let cash' := cash - cost
    match lookupH holdings trade.symbol with
    | some old =>
      let total_qty := old.qty + trade.quantity
      let total_cost := old.avg_cost * (old.qty : ℚ) + cost
      (setH holdings trade.symbol
        { qty := total_qty
          avg_cost := if total_qty = 0 then 0 else total_cost / (total_qty : ℚ) },
       cash')
    | none =>
      (setH holdings trade.symbol { qty := trade.quantity, avg_cost := trade.price },
       cash')
  else if trade.action = "SELL" then
    let cash' := cash + (trade.quantity : ℚ) * trade.price
    match lookupH holdings trade.symbol with
    | some old =>
      let q' := old.qty - trade.quantity
      if q' ≤ 0 then (eraseH holdings trade.symbol, cash')
      else (setH holdings trade.symbol { old with qty := q' }, cash')
    | none => (holdings, cash')
  else (holdings, cash)

/-- The replay loop itself: fold replay_trade over the ledger. -/
def replay_trades (holdings : List (String × Holding)) (cash : ℚ) :
    List TradeRecord → List (String × Holding) × ℚ
  | [] => (holdings, cash)
  | t :: ts =>
    let r := replay_trade holdings cash t
    replay_trades r.1 r.2 ts

/-- portfolio_tracker.py sync_from_sim.  The prior tracker state is a
parameter but is fully reset (holdings = {}, cash = initial_cash)
before the replay, exactly as in the source; a missing or corrupt
trades file replays the empty list, which yields the same result as
the early-return path.  Total value prices holdings at average cost.
The Boolean is true iff self.save() ran before returning. -/
def sync_from_sim (_prior : PortfolioState) (trades : List TradeRecord)
    (initial_cash : ℚ) : PortfolioState × Bool :=
  let r := replay_trades [] initial_cash trades
  let holdings_value := (r.1.map (fun p => (p.2.qty : ℚ) * p.2.avg_cost)).sum
  (⟨r.1, r.2, r.2 + holdings_value⟩, true)

/-- A brokerage position entry reduced to the fields that
sync_from_api reads: the resolved symbol (the Product dict symbol when
present, otherwise symbolDescription, "" when absent — falsy symbols
are skipped) plus quantity, pricePaid, marketValue and totalGain. -/
structure ApiPosition where
  symbol : String
  quantity : ℤ
  price_paid : ℚ
  market_value : ℚ
  total_gain : ℚ
deriving DecidableEq, Repr

/-- portfolio_tracker.py sync_from_api: overwrite cash and total value
from the balance response, rebuild holdings from the position list,
then save.  The Boolean is true iff self.save() ran before returning. -/
def sync_from_api (_prior : PortfolioState) (api_cash api_total : ℚ)
    (positions : List ApiPosition) : PortfolioState × Bool :=
  let holdings := positions.foldl (fun acc pos =>
    if pos.symbol = "" then acc
    else setH acc pos.symbol
      { qty := pos.quantity
        avg_cost := pos.price_paid
        market_value := some pos.market_value
        total_gain := some pos.total_gain }) []
  (⟨holdings, api_cash, api_total⟩, true)

/-- portfolio_tracker.py update_market_values: recompute total_value
from live prices (falling back to average cost), leaving holdings and
cash untouched.  The method contains no self.save() call, so the
persisted flag is false. -/
def update_market_values (st : PortfolioState)
    (live_prices : String → Option ℚ) : PortfolioState × Bool :=
  let holdings_value := (st.holdings.map (fun p =>
    match live_prices p.1 with
    | some price => (p.2.qty : ℚ) * price
    | none => (p.2.qty : ℚ) * p.2.avg_cost)).sum
  ({ st with total_value := st.cash + holdings_value }, false)

/-- C2: ledger replay is deterministic and idempotent — sync_from_sim
resets holdings and cash before replaying, so its result does not
depend on the prior state, and running it twice over the same trade
sequence equals running it once. -/
theorem sync_from_sim_deterministic_idempotent
    (prior prior' : PortfolioState) (trades : List TradeRecord)
    (initial_cash : ℚ) :
    sync_from_sim prior trades initial_cash
      = sync_from_sim prior' trades initial_cash ∧
    sync_from_sim (sync_from_sim prior trades initial_cash).1 trades initial_cash
      = sync_from_sim prior trades initial_cash :=
  ⟨rfl, rfl⟩

/-- C6 counterexample: update_market_values changes total_value (from
0 to 70 on a 10-share holding quoted at 7) yet never writes the
portfolio-state file, refuting "every mutating operation persists
before returning". -/
theorem update_market_values_no_persist_counterexample :
    (update_market_values ⟨[("AAPL", ⟨10, 5, none, none⟩)], 0, 0⟩
        (fun s => if s = "AAPL" then some 7 else none)).2 = false ∧
    (update_market_values ⟨[("AAPL", ⟨10, 5, none, none⟩)], 0, 0⟩
        (fun s => if s = "AAPL" then some 7 else none)).1.total_value ≠
      (⟨[("AAPL", ⟨10, 5, none, none⟩)], 0, 0⟩ : PortfolioState).total_value := by
  refine ⟨rfl, ?_⟩
  norm_num [update_market_values]

/-- C6 (amended): of PortfolioTracker's state-mutating operations,
sync_from_api and sync_from_sim write the portfolio-state file before
returning, but update_market_values mutates total_value without
persisting. -/
theorem mutating_operations_persistence
    (p1 p2 p3 : PortfolioState) (trades : List TradeRecord)
    (initial_cash api_cash api_total : ℚ) (positions : List ApiPosition)
    (live_prices : String → Option ℚ) :
    (sync_from_sim p1 trades initial_cash).2 = true ∧
    (sync_from_api p2 api_cash api_total positions).2 = true ∧
    (update_market_values p3 live_prices).2 = false :=
  ⟨rfl, rfl, rfl⟩

/-- C9: update_market_values is a frame for everything but
total_value — the cash field and the entire holdings map (hence every
quantity and average cost) are returned unchanged. -/
theorem update_market_values_frame (st : PortfolioState)
    (live_prices : String → Option ℚ) :
    (update_market_values st live_prices).1.cash = st.cash ∧
    (update_market_values st live_prices).1.holdings = st.holdings :=
  ⟨rfl, rfl⟩

/-- C10: replaying a SELL for a symbol with no holding is not an
error — the proceeds are still credited and the holdings map is left
unchanged; the fold then continues with the remaining records; and a
BUY debits cash unconditionally (no guard stops cash from going
negative). -/
theorem replay_sell_unknown_symbol
    (holdings h2 : List (String × Holding)) (cash c2 : ℚ)
    (t b : TradeRecord) (ts : List TradeRecord)
    (hsell : t.action = "SELL") (hnone : lookupH holdings t.symbol = none)
    (hbuy : b.action = "BUY") :
    replay_trade holdings cash t
      = (holdings, cash + (t.quantity : ℚ) * t.price) ∧
    replay_trades holdings cash (t :: ts)
      = replay_trades holdings (cash + (t.quantity : ℚ) * t.price) ts ∧
    (replay_trade h2 c2 b).2 = c2 - (b.quantity : ℚ) * b.price := by
  have hne : t.action ≠ "BUY" := by rw [hsell]; decide
  have h1 : replay_trade holdings cash t
      = (holdings, cash + (t.quantity : ℚ) * t.price) := by
    simp [replay_trade, hsell, hne, hnone]
  refine ⟨h1, ?_, ?_⟩
  · simp [replay_trades, h1]
  · rcases hb : lookupH h2 b.symbol with _ | old <;>
      simp [replay_trade, hbuy, hb]

/-- Witness for C10 at a concrete ledger state: empty holdings, a SELL
of 3 XOM at 50 (proceeds credited, holdings untouched) and a BUY of
10 AAPL at 10 from zero cash (cash goes to −100 with no error). -/
theorem replay_sell_unknown_symbol_witness :
    ((("SELL" : String) = "SELL" ∧
      lookupH [] "XOM" = none ∧ ("BUY" : String) = "BUY") ∧
     (replay_trade [] 0 ⟨"", "SELL", "XOM", 3, 50, 150, "", ""⟩
        = ([], 0 + ((3 : ℤ) : ℚ) * 50) ∧
      replay_trades [] 0 [⟨"", "SELL", "XOM", 3, 50, 150, "", ""⟩]
        = replay_trades [] (0 + ((3 : ℤ) : ℚ) * 50) [] ∧
      (replay_trade [] 0 ⟨"", "BUY", "AAPL", 10, 10, 100, "", ""⟩).2
        = 0 - ((10 : ℤ) : ℚ) * 10)) :=
  ⟨⟨rfl, rfl, rfl⟩,
   replay_sell_unknown_symbol [] [] 0 0 ⟨"", "SELL", "XOM", 3, 50, 150, "", ""⟩
     ⟨"", "BUY", "AAPL", 10, 10, 100, "", ""⟩ [] rfl rfl rfl⟩

/-! ## Settlement tracker (src/trading/risk_manager.py, SettlementTracker)

Dates are calendar-day numbers; the Python code compares ISO date
strings, which is the same order.  The pending dict maps settlement
day to the cash amount pending for that day. -/

/-- Python dict lookup on the pending association list. -/
def lookupQ : List (ℕ × ℚ) → ℕ → Option ℚ
  | [], _ => none
  | e :: rest, k => if e.1 = k then some e.2 else lookupQ rest k

/-- Python dict assignment on the pending association list. -/
def setQ : List (ℕ × ℚ) → ℕ → ℚ → List (ℕ × ℚ)
  | [], k, v => [(k, v)]
  | e :: rest, k, v => if e.1 = k then (k, v) :: rest else e :: setQ rest k v

/-- risk_manager.py SettlementTracker.record_sale_proceeds: proceeds
recorded on day `today` are booked under day `today + 1`:
self.pending[settle_date] = self.pending.get(settle_date, 0.0) + amount. -/
def record_sale_proceeds (today : ℕ) (amount : ℚ)
    (pending : List (ℕ × ℚ)) : List (ℕ × ℚ) :=
  setQ pending (today + 1) ((lookupQ pending (today + 1)).getD 0 + amount)

/-- risk_manager.py SettlementTracker.get_unavailable_cash: sum the
entries dated strictly after today and, as a side effect, drop every
entry dated today or earlier (settled).  Returns (total, new pending). -/
def get_unavailable_cash (today : ℕ) (pending : List (ℕ × ℚ)) :
    ℚ × List (ℕ × ℚ) :=
  (((pending.filter (fun e => decide (today < e.1))).map Prod.snd).sum,
   pending.filter (fun e => decide (today < e.1)))

/-- Recording an amount under day k adds it to every unavailable-cash
sum queried before day k, and to no later query. -/
lemma sum_filter_setQ (q k : ℕ) (amount : ℚ) (l : List (ℕ × ℚ)) :
    (((setQ l k ((lookupQ l k).getD 0 + amount)).filter
        (fun e => decide (q < e.1))).map Prod.snd).sum
      = ((l.filter (fun e => decide (q < e.1))).map Prod.snd).sum
        + (if q < k then amount else 0) := by
  induction l with
  | nil =>
    by_cases hk : q < k <;> simp [setQ, lookupQ, List.filter, hk]
  | cons e rest ih =>
    by_cases he : e.1 = k
    · subst he
      by_cases hk : q < e.1
      · simp [setQ, lookupQ, List.filter_cons, hk]
        ring
      · simp [setQ, lookupQ, List.filter_cons, hk]
    · have hne : lookupQ (e :: rest) k = lookupQ rest k := by
        simp [lookupQ, he]
      by_cases hq : q < e.1
      · simp [setQ, he, hne, List.filter_cons, hq, ih]
        ring
      · simp [setQ, he, hne, List.filter_cons, hq, ih]

/-- A key dated on or before the query day never survives the
settlement filter. -/
lemma lookup_filter_settled (q k : ℕ) (hk : ¬ q < k) (l : List (ℕ × ℚ)) :
    lookupQ (l.filter (fun e => decide (q < e.1))) k = none := by
  induction l with
  | nil => rfl
  | cons e rest ih =>
    by_cases hq : q < e.1
    · have he : e.1 ≠ k := by
        intro h
        exact hk (h ▸ hq)
      simp [List.filter_cons, hq, lookupQ, he, ih]
    · simp [List.filter_cons, hq, ih]

/-- C7: T+1 settlement — proceeds recorded on day d are included in
the unavailable-cash total queried on day d, are no longer included in
a query on any day q ≥ d + 1, and the settled entry for day d + 1 is
removed from the pending map by that later query. -/
theorem settlement_t_plus_one (pending : List (ℕ × ℚ)) (amount : ℚ)
    (d q : ℕ) (hq : d + 1 ≤ q) :
    (get_unavailable_cash d (record_sale_proceeds d amount pending)).1
      = (get_unavailable_cash d pending).1 + amount ∧
    (get_unavailable_cash q (record_sale_proceeds d amount pending)).1
      = (get_unavailable_cash q pending).1 ∧
    lookupQ (get_unavailable_cash q
        (record_sale_proceeds d amount pending)).2 (d + 1) = none := by
  have hd : d < d + 1 := Nat.lt_succ_self d
  have hnq : ¬ q < d + 1 := Nat.not_lt.mpr hq
  refine ⟨?_, ?_, ?_⟩
  · simpa [get_unavailable_cash, record_sale_proceeds, hd]
      using sum_filter_setQ d (d + 1) amount pending
  · simpa [get_unavailable_cash, record_sale_proceeds, hnq]
      using sum_filter_setQ q (d + 1) amount pending
  · exact lookup_filter_settled q (d + 1) hnq _

/-- Witness for C7: proceeds of 100 recorded on day 0 into an empty
pending map, queried on days 0 and 1. -/
theorem settlement_t_plus_one_witness :
    (0 + 1 ≤ 1) ∧
    ((get_unavailable_cash 0 (record_sale_proceeds 0 100 [])).1
       = (get_unavailable_cash 0 []).1 + 100 ∧
     (get_unavailable_cash 1 (record_sale_proceeds 0 100 [])).1
       = (get_unavailable_cash 1 []).1 ∧
     lookupQ (get_unavailable_cash 1 (record_sale_proceeds 0 100 [])).2 1
       = none) :=
  ⟨by decide, settlement_t_plus_one [] 100 0 1 (by decide)⟩

/-! ## Position sizing (src/trading/order_executor.py and the buy
branch of the main-loop execution step, src/trading/main.py 247-261) -/

/-- order_executor.py compute_position_size: per-symbol budget capped
at MAX_POSITION_PCT of the portfolio, floor-divided by price
(int(budget // price)), floored at 0. -/
def compute_position_size (_symbol : String)
    (price portfolio_value sector_allocation : ℚ)
    (num_sector_stocks : ℤ) : ℤ :=
  if price ≤ 0 ∨ portfolio_value ≤ 0 then 0
  else
    let sector_budget := portfolio_value * sector_allocation
    let per_stock_budget := sector_budget / ((max num_sector_stocks 1 : ℤ) : ℚ)
    let max_budget := portfolio_value * MAX_POSITION_PCT
    let budget := min per_stock_budget max_budget
    max ⌊budget / price⌋ 0

/-- The buy-sizing portion of the execution loop (main.py 251-261):
size the position, and if its cost exceeds available cash (portfolio
cash minus unsettled proceeds), shrink to floor(avail // price); the
result is the quantity passed to execute_buy, or 0 when no buy is
executed. -/
def executed_buy_qty (symbol : String)
    (price portfolio_value sector_allocation : ℚ) (num_sector_stocks : ℤ)
    (cash unavailable : ℚ) : ℤ :=
  let qty := compute_position_size symbol price portfolio_value
    sector_allocation num_sector_stocks
  if 0 < qty then
    let cost := (qty : ℚ) * price
    let avail := cash - unavailable
    let qty2 := if avail < cost then ⌊avail / price⌋ else qty
    if 0 < qty2 then qty2 else 0
  else 0

/-- Multiplying the floor of b / p back by a positive p stays below b. -/
lemma floor_div_mul_le (b p : ℚ) (hp : 0 < p) : (⌊b / p⌋ : ℚ) * p ≤ b := by
  calc (⌊b / p⌋ : ℚ) * p ≤ (b / p) * p :=
        mul_le_mul_of_nonneg_right (Int.floor_le (b / p)) (le_of_lt hp)
    _ = b := div_mul_cancel₀ b (ne_of_gt hp)

/-- C8: for positive price and portfolio value, the sized quantity's
cost never exceeds portfolio_value × MAX_POSITION_PCT, and whenever the
execution loop actually buys (executed quantity positive) the executed
cost never exceeds available cash (cash minus unsettled proceeds). -/
theorem position_size_and_buy_cost_bounds (symbol : String)
    (price portfolio_value sector_allocation cash unavailable : ℚ)
    (num_sector_stocks : ℤ)
    (hp : 0 < price) (hv : 0 < portfolio_value) :
    ((compute_position_size symbol price portfolio_value sector_allocation
        num_sector_stocks : ℤ) : ℚ) * price
      ≤ portfolio_value * MAX_POSITION_PCT ∧
    (0 < executed_buy_qty symbol price portfolio_value sector_allocation
        num_sector_stocks cash unavailable →
      ((executed_buy_qty symbol price portfolio_value sector_allocation
          num_sector_stocks cash unavailable : ℤ) : ℚ) * price
        ≤ cash - unavailable) := by
  have hcond : ¬ (price ≤ 0 ∨ portfolio_value ≤ 0) := by
    push_neg
    exact ⟨hp, hv⟩
  have hmaxpos : 0 < portfolio_value * MAX_POSITION_PCT :=
    mul_pos hv (by norm_num [MAX_POSITION_PCT])
  have hsize : ((compute_position_size symbol price portfolio_value
      sector_allocation num_sector_stocks : ℤ) : ℚ) * price
        ≤ portfolio_value * MAX_POSITION_PCT := by
    simp only [compute_position_size, hcond, if_false]
    set budget := min (portfolio_value * sector_allocation /
      ((max num_sector_stocks 1 : ℤ) : ℚ)) (portfolio_value * MAX_POSITION_PCT)
      with hbudget
    rcases le_or_lt (⌊budget / price⌋ : ℤ) 0 with hf | hf
    · rw [max_eq_right hf]
      simpa using le_of_lt hmaxpos
    · rw [max_eq_left (le_of_lt hf)]
      calc (⌊budget / price⌋ : ℚ) * price ≤ budget := floor_div_mul_le _ _ hp
        _ ≤ portfolio_value * MAX_POSITION_PCT := min_le_right _ _
  refine ⟨hsize, ?_⟩
  intro hpos
  simp only [executed_buy_qty] at hpos ⊢
  split_ifs at hpos ⊢ with h1 h2 h3
  · -- cost exceeded avail, shrunk qty positive
    exact floor_div_mul_le _ _ hp
  · exact absurd hpos (by simp)
  · -- original qty fits in available cash
    exact le_of_not_lt h2
  · exact absurd hpos (by simp)

/-- Witness for C8: price 10, portfolio 1000, allocation 1/2, 5 stocks
in the sector, cash 100 with no unsettled proceeds; 5 shares are
sized (cost 50 = the 5% cap) and executed within available cash. -/
theorem position_size_bounds_witness :
    ((0 : ℚ) < 10 ∧ (0 : ℚ) < 1000 ∧
     0 < executed_buy_qty "X" 10 1000 (1/2) 5 100 0) ∧
    (((compute_position_size "X" 10 1000 (1/2) 5 : ℤ) : ℚ) * 10
       ≤ 1000 * MAX_POSITION_PCT ∧
     ((executed_buy_qty "X" 10 1000 (1/2) 5 100 0 : ℤ) : ℚ) * 10
       ≤ 100 - 0) := by
  have hq : executed_buy_qty "X" 10 1000 (1/2) 5 100 0 = 5 := by
    norm_num [executed_buy_qty, compute_position_size, MAX_POSITION_PCT,
      max_def, min_def, Int.floor_eq_iff]
  have h := position_size_and_buy_cost_bounds "X" 10 1000 (1/2) 100 0 5
    (by norm_num) (by norm_num)
  exact ⟨⟨by norm_num, by norm_num, by rw [hq]; norm_num⟩,
    h.1, h.2 (by rw [hq]; norm_num)⟩

/-! ## Trading window signal (src/trading/trading_window.py) -/

/-- WindowResult: the output container of compute_trading_window; the
signal logic reads only `position`. -/
structure WindowResult where
  symbol : String
  center : ℚ
  upper : ℚ
  lower : ℚ
  current_price : ℚ
  position : ℚ
  z_score : ℚ
  volatility : ℚ
deriving DecidableEq, Repr

/-- trading_window.py get_window_signal: classify the window position;
a missing window is HOLD. -/
def get_window_signal : Option WindowResult → String
  | none => "HOLD"
  | some w =>
    if w.position < STRONG_BUY_THRESHOLD then "STRONG_BUY"
    else if w.position < BUY_THRESHOLD then "BUY"
    else if w.position > STRONG_SELL_THRESHOLD then "STRONG_SELL"
    else if w.position > SELL_THRESHOLD then "SELL"
    else "HOLD"

/-! ## Stock universe (src/trading/universe.py) -/

/-- universe.py TECH. -/
def TECH : List String :=
  ["AAPL", "MSFT", "GOOGL", "AMZN", "NVDA", "META", "AVGO", "CRM",
   "ADBE", "AMD", "INTC", "CSCO", "ORCL", "TXN", "QCOM", "IBM", "MU"]

/-- universe.py ENERGY. -/
def ENERGY : List String :=
  ["XOM", "CVX", "COP", "SLB", "EOG", "MPC", "PSX", "VLO",
   "OXY", "HAL", "DVN", "FANG", "HES", "BKR", "KMI", "WMB", "OKE"]

/-- universe.py MINERALS. -/
def MINERALS : List String :=
  ["NEM", "GOLD", "FNV", "WPM", "AEM", "GFI", "KGC", "AU",
   "RGLD", "AGI", "FCX", "SCCO", "TECK", "BHP", "RIO", "NUE"]

/-- universe.py ALL_SYMBOLS = TECH + ENERGY + MINERALS. -/
def ALL_SYMBOLS : List String := TECH ++ ENERGY ++ MINERALS

/-- universe.py SYMBOL_TO_SECTOR lookup with default "Unknown" (the
three sector lists are disjoint, so first match equals the dict). -/
def symbol_to_sector (sym : String) : String :=
  if TECH.contains sym then "Tech"
  else if ENERGY.contains sym then "Energy"
  else if MINERALS.contains sym then "Minerals"
  else "Unknown"

/-! ## Signal generator (src/trading/signal_generator.py) -/

/-- risk_manager.py RiskFlags. -/
structure RiskFlags where
  wash_sale_blocked : Bool
  max_positions_reached : Bool
deriving DecidableEq, Repr

/-- signal_generator.py Signal. -/
structure Signal where
  symbol : String
  action : String
  reason : String
  priority : ℚ
  value_score : ℚ
  window_signal : String
  sector : String
deriving DecidableEq, Repr

/-- signal_generator.py generate_signal: the per-symbol decision rules
in source order (held sell rules, then not-held gates and buy rules,
then the default HOLD).  The sector_allocation argument is accepted and
unused, exactly as in the source. -/
def generate_signal (symbol : String) (value_score : ℚ)
    (window : Option WindowResult) (_sector_allocation : ℚ)
    (is_held : Bool) (risk_flags : RiskFlags) : Signal :=
  let sector := symbol_to_sector symbol
  let w_signal := get_window_signal window
  if is_held then
    if value_score < COLLAPSE_SCORE_THRESHOLD then
      { symbol := symbol, action := "SELL"
        reason := "Fundamentals collapsed (score=" ++ toString value_score ++ ")"
        priority := 90, value_score := value_score
        window_signal := w_signal, sector := sector }
    else if (w_signal = "SELL" ∨ w_signal = "STRONG_SELL") ∧
        value_score < SELL_SCORE_THRESHOLD then
      { symbol := symbol, action := "SELL"
        reason := "Sell zone + weak value (score=" ++ toString value_score ++
          ", window=" ++ w_signal ++ ")"
        priority := 80, value_score := value_score
        window_signal := w_signal, sector := sector }
    else if w_signal = "STRONG_SELL" then
      { symbol := symbol, action := "SELL"
        reason := "Strong sell zone (window=" ++ w_signal ++ ", score=" ++
          toString value_score ++ ")"
        priority := 70, value_score := value_score
        window_signal := w_signal, sector := sector }
    else
      { symbol := symbol, action := "HOLD"
        reason := "Hold (score=" ++ toString value_score ++ ", window=" ++
          w_signal ++ ")"
        priority := 0, value_score := value_score
        window_signal := w_signal, sector := sector }
  else
    if ¬ passes_fundamental_gate value_score then
      { symbol := symbol, action := "HOLD"
        reason := "Below fundamental gate (score=" ++ toString value_score ++ ")"
        priority := 0, value_score := value_score
        window_signal := w_signal, sector := sector }
    else if risk_flags.wash_sale_blocked then
      { symbol := symbol, action := "HOLD"
        reason := "Wash sale blocked"
        priority := 0, value_score := value_score
        window_signal := w_signal, sector := sector }
    else if risk_flags.max_positions_reached then
      { symbol := symbol, action := "HOLD"
        reason := "Max positions reached"
        priority := 0, value_score := value_score
        window_signal := w_signal, sector := sector }
    else if value_score ≥ STRONG_BUY_SCORE_THRESHOLD ∧
        w_signal = "STRONG_BUY" then
      { symbol := symbol, action := "STRONG_BUY"
        reason := "Strong buy: high value (" ++ toString value_score ++
          ") + strong buy zone"
        priority := 100, value_score := value_score
        window_signal := w_signal, sector := sector }
    else if value_score ≥ BUY_SCORE_THRESHOLD ∧
        (w_signal = "BUY" ∨ w_signal = "STRONG_BUY") then
      { symbol := symbol, action := "BUY"
        reason := "Buy: good value (" ++ toString value_score ++
          ") + buy zone (" ++ w_signal ++ ")"
        priority := 60 + value_score / 10, value_score := value_score
        window_signal := w_signal, sector := sector }
    else
      { symbol := symbol, action := "HOLD"
        reason := "Hold (score=" ++ toString value_score ++ ", window=" ++
          w_signal ++ ")"
        priority := 0, value_score := value_score
        window_signal := w_signal, sector := sector }

/-- signal_generator.py: the default RiskFlags used when a symbol is
absent from risk_flags_by_symbol. -/
def default_risk_flags : RiskFlags := ⟨false, false⟩

/-- The body of the generate_all_signals loop before the sort: one
signal per universe symbol in universe order (dict.get defaults 50.0
for the score and 0.33 for the sector allocation), keeping only
signals whose action is not HOLD. -/
def nonhold_signals (value_scores : String → Option ℚ)
    (windows : String → Option WindowResult)
    (sector_allocations : String → Option ℚ)
    (held_symbols : String → Bool)
    (risk_flags_by_symbol : String → Option RiskFlags) : List Signal :=
  (ALL_SYMBOLS.map (fun sym =>
    generate_signal sym ((value_scores sym).getD 50) (windows sym)
      ((sector_allocations (symbol_to_sector sym)).getD (33/100))
      (held_symbols sym)
      ((risk_flags_by_symbol sym).getD default_risk_flags))).filter
    (fun s => s.action != "HOLD")

/-- Insert into a descending-priority list, before the first element of
strictly smaller priority (equal priorities keep the existing element
first: the inserted element came earlier in the input). -/
def insert_desc (x : Signal) : List Signal → List Signal
  | [] => [x]
  | y :: ys => if y.priority ≤ x.priority then x :: y :: ys
               else y :: insert_desc x ys

/-- Stable descending insertion sort: the embedding of Python's stable
list.sort(key=priority, reverse=True). -/
def sort_desc : List Signal → List Signal
  | [] => []
  | x :: xs => insert_desc x (sort_desc xs)

/-- signal_generator.py generate_all_signals: the non-HOLD signals of
the universe, stably sorted by priority, highest first. -/
def generate_all_signals (value_scores : String → Option ℚ)
    (windows : String → Option WindowResult)
    (sector_allocations : String → Option ℚ)
    (held_symbols : String → Bool)
    (risk_flags_by_symbol : String → Option RiskFlags) : List Signal :=
  sort_desc (nonhold_signals value_scores windows sector_allocations
    held_symbols risk_flags_by_symbol)

/-- Membership through insert_desc. -/
lemma mem_insert_desc (x a : Signal) (l : List Signal) :
    a ∈ insert_desc x l ↔ a = x ∨ a ∈ l := by
  induction l with
  | nil => simp [insert_desc]
  | cons y ys ih =>
    simp only [insert_desc]
    split_ifs
    · simp
    · simp only [List.mem_cons, ih]
      tauto

/-- sort_desc permutes nothing in or out. -/
lemma mem_sort_desc (a : Signal) (l : List Signal) :
    a ∈ sort_desc l ↔ a ∈ l := by
  induction l with
  | nil => simp [sort_desc]
  | cons x xs ih => simp [sort_desc, mem_insert_desc, ih]

/-- insert_desc preserves descending pairwise order. -/
lemma pairwise_insert_desc (x : Signal) (l : List Signal)
    (h : l.Pairwise (fun a b => b.priority ≤ a.priority)) :
    (insert_desc x l).Pairwise (fun a b => b.priority ≤ a.priority) := by
  induction l with
  | nil => simp [insert_desc]
  | cons y ys ih =>
    rcases List.pairwise_cons.mp h with ⟨hy, hys⟩
    simp only [insert_desc]
    split_ifs with hc
    · refine List.pairwise_cons.mpr ⟨?_, h⟩
      intro b hb
      rcases List.mem_cons.mp hb with rfl | hb'
      · exact hc
      · exact le_trans (hy b hb') hc
    · refine List.pairwise_cons.mpr ⟨?_, ih hys⟩
      intro b hb
      rcases (mem_insert_desc x b ys).mp hb with rfl | hb'
      · exact le_of_not_le hc
      · exact hy b hb'

/-- sort_desc output is descending in priority. -/
lemma pairwise_sort_desc (l : List Signal) :
    (sort_desc l).Pairwise (fun a b => b.priority ≤ a.priority) := by
  induction l with
  | nil => simp [sort_desc]
  | cons x xs ih => exact pairwise_insert_desc x _ ih

/-- Stability of the insertion step: restricting to one priority value,
insert_desc either prepends the new element (when it has that priority:
every element it jumped over had strictly greater priority) or leaves
the restriction unchanged. -/
lemma filter_insert_desc (x : Signal) (l : List Signal) (p : ℚ) :
    (insert_desc x l).filter (fun s => decide (s.priority = p))
      = if x.priority = p
        then x :: l.filter (fun s => decide (s.priority = p))
        else l.filter (fun s => decide (s.priority = p)) := by
  induction l with
  | nil =>
    by_cases hx : x.priority = p <;> simp [insert_desc, List.filter, hx]
  | cons y ys ih =>
    simp only [insert_desc]
    by_cases hc : y.priority ≤ x.priority
    · rw [if_pos hc]
      by_cases hx : x.priority = p <;>
        simp [List.filter_cons, hx]
    · rw [if_neg hc]
      rw [List.filter_cons, List.filter_cons]
      by_cases hy : y.priority = p
      · have hx : x.priority ≠ p := by
          intro hxp
          exact hc (le_of_eq (hy.trans hxp.symm))
        simp [hy, hx, ih]
      · by_cases hx : x.priority = p <;> simp [hy, hx, ih]

/-- Stability of the sort: restricting to any one priority value, the
sorted list and the input list agree. -/
lemma filter_sort_desc (l : List Signal) (p : ℚ) :
    (sort_desc l).filter (fun s => decide (s.priority = p))
      = l.filter (fun s => decide (s.priority = p)) := by
  induction l with
  | nil => rfl
  | cons x xs ih =>
    simp only [sort_desc, filter_insert_desc, List.filter_cons, ih]
    by_cases hx : x.priority = p <;> simp [hx]

/-- C3: for every input, generate_all_signals returns only non-HOLD
signals, sorted by priority in descending order, and the sort is
stable — for each priority value the subsequence of that priority
equals the corresponding subsequence of the loop's pre-sort list,
which is in universe (input symbol list) order. -/
theorem generate_all_signals_sorted_stable
    (value_scores : String → Option ℚ)
    (windows : String → Option WindowResult)
    (sector_allocations : String → Option ℚ)
    (held_symbols : String → Bool)
    (risk_flags_by_symbol : String → Option RiskFlags) :
    (∀ s ∈ generate_all_signals value_scores windows sector_allocations
        held_symbols risk_flags_by_symbol, s.action ≠ "HOLD") ∧
    (generate_all_signals value_scores windows sector_allocations
        held_symbols risk_flags_by_symbol).Pairwise
      (fun a b => b.priority ≤ a.priority) ∧
    ∀ p : ℚ,
      (generate_all_signals value_scores windows sector_allocations
          held_symbols risk_flags_by_symbol).filter
        (fun s => decide (s.priority = p))
      = (nonhold_signals value_scores windows sector_allocations
          held_symbols risk_flags_by_symbol).filter
        (fun s => decide (s.priority = p)) := by
  refine ⟨?_, pairwise_sort_desc _, fun p => filter_sort_desc _ p⟩
  intro s hs
  have hmem : s ∈ nonhold_signals value_scores windows sector_allocations
      held_symbols risk_flags_by_symbol := (mem_sort_desc s _).mp hs
  have hne := List.of_mem_filter hmem
  simpa using hne

end Trading
